import Mathlib

/-!
Verification of the `wk` backup-orchestration CLI (`src/main.rs`) against its
natural-language specification.

The embedding models:
  * filesystem paths as an `absolute` flag plus a list of components,
    mirroring Rust's `std::path` view after `components()` normalization
    (interior `.` components are normalized away by Rust, so they are not
    modelled; `..` components are kept, since `pathdiff` produces them);
  * `pathdiff::diff_paths` exactly following its published algorithm
    (the old `path_relative_from` loop);
  * `Path::parent` (returns the path without its final component; `none`
    for an empty component list, matching Rust's `None` for the empty path
    or a bare root) and `Path::join`;
  * filesystem objects as seen by `adopt`'s two metadata queries:
    `path.is_dir()` (follows symlinks) and `fs::symlink_metadata` (does not);
  * `Secretz::adopt` as a function from the queried filesystem view to
    either an error or the ordered list of mutation actions it performs
    (`create_dir_all`, `copy`, `remove_file`); an empty action list on
    success is the "silent no-op";
  * the configuration model, the S3 URL resolver, the restic argument and
    environment synthesis, and the `config init` state transition.

TOML (de)serialization and the OS queries (`whoami::username`,
`directories::BaseDirs`, `File::open`) are external collaborators, passed in
as parameters or abstract outcomes, matching the spec's scope section.
-/

namespace Wk

/-- One path component, as produced by Rust's `Path::components()`:
either `..` (`Component::ParentDir`) or a normal named component. -/
inductive Component where
  | parentDir : Component
  | normal : String → Component
deriving DecidableEq

/-- A filesystem path: an absolute flag (standing for the leading
`Component::RootDir`) plus the remaining components in order. -/
structure FsPath where
  absolute : Bool
  comps : List Component
deriving DecidableEq

/-- Rust `Path::join`: an absolute argument replaces the path, a relative
argument is appended. -/
def FsPath.join (p q : FsPath) : FsPath :=
  if q.absolute then q else ⟨p.absolute, p.comps ++ q.comps⟩

/-- Rust `Path::parent`: drops the final component; `none` when there is no
component left (the empty path, or a bare root). -/
def FsPath.parent (p : FsPath) : Option FsPath :=
  match p.comps with
  | [] => none
  | _ => some ⟨p.absolute, p.comps.dropLast⟩

/-- String form of one component, as `Path::display` prints it. -/
def compDisplay : Component → String
  | .parentDir => ".."
  | .normal s => s

/-- Rust `Path::display().to_string()` for the modelled paths. -/
def FsPath.display (p : FsPath) : String :=
  (if p.absolute then "/" else "") ++ String.intercalate "/" (p.comps.map compDisplay)

/-- Component-walk loop of `pathdiff::diff_paths` (for inputs without
interior `.` components, which Rust's `components()` already removed):
strips the common prefix; when the base has components left over it emits one
`..` per leftover; a `..` in the base at a mismatch yields `none`. -/
def diff_comps : List Component → List Component → Option (List Component)
  | xs, [] => some xs
  | [], _ :: bs =>
    match diff_comps [] bs with
    | some r => some (.parentDir :: r)
    | none => none
  | x :: xs, y :: ys =>
    if x = y then diff_comps xs ys
    else
      match y with
      | .parentDir => none
      | .normal _ => some (List.replicate (ys.length + 1) Component.parentDir ++ x :: xs)

/-- `pathdiff::diff_paths(path, base)`: when the two paths disagree on
absoluteness the result is the path itself if absolute, else `none`;
otherwise the component walk (the shared root of two absolute paths strips
as the equal leading `RootDir` components do in Rust). -/
def diff_paths (path base : FsPath) : Option FsPath :=
  if path.absolute != base.absolute then
    if path.absolute then some path else none
  else
    (diff_comps path.comps base.comps).map (fun c => ⟨false, c⟩)

/-- A filesystem object at a path, carrying exactly what `adopt`'s two
metadata queries can observe: regular file, directory, broken symlink, or a
symlink to another object (chains nest). -/
inductive FileObject where
  | regular : FileObject
  | directory : FileObject
  | brokenSymlink : FileObject
  | symlinkTo : FileObject → FileObject
deriving DecidableEq

/-- Whether the object resolves to a directory after following symlinks:
the result of Rust's `path.is_dir()` when the object exists. -/
def FileObject.resolvesToDir : FileObject → Bool
  | .directory => true
  | .symlinkTo t => t.resolvesToDir
  | _ => false

/-- Rust `path.is_dir()` on an optional object (`none` = path does not
exist, where `is_dir` returns `false`). -/
def isDirQuery : Option FileObject → Bool
  | none => false
  | some o => o.resolvesToDir

/-- Rust `fs::symlink_metadata(path)?.file_type().is_symlink()`: inspects
the link itself, so both broken and live symlinks answer `true`. -/
def FileObject.isSymlinkKind : FileObject → Bool
  | .brokenSymlink => true
  | .symlinkTo _ => true
  | _ => false

/-- The `secretz` section of the configuration: the managed tree root. -/
structure Secretz where
  path : FsPath
deriving DecidableEq

/-- `Secretz::pack_dir`: `self.path / username / "pack"`; the username comes
from `whoami::username()` and is passed in as a parameter. -/
def Secretz.pack_dir (s : Secretz) (username : String) : FsPath :=
  (s.path.join ⟨false, [.normal username]⟩).join ⟨false, [.normal "pack"]⟩

/-- One filesystem mutation performed by `adopt`, in the order the code
issues them: `fs::create_dir_all`, `fs::copy`, `fs::remove_file`. -/
inductive FsAction where
  | createDirAll : FsPath → FsAction
  | copyFile : FsPath → FsPath → FsAction
  | removeFile : FsPath → FsAction
deriving DecidableEq

/-- `Secretz::adopt`. Parameters beyond the receiver: the current username
(`whoami::username()`), the home directory reported by
`directories::BaseDirs::new()` (`none` when base dirs are unavailable), the
filesystem object found at `path` (`none` when `symlink_metadata` fails
because the path does not exist), and the path itself. Returns the error the
code returns, or the ordered list of mutations it performs (`[]` is the
silent no-op). The model string for the `symlink_metadata` failure stands
for the propagated OS error. -/
def Secretz.adopt (s : Secretz) (username : String) (homeDir : Option FsPath)
    (obj : Option FileObject) (path : FsPath) : Except String (List FsAction) :=
  if isDirQuery obj then .error "should not be a dir"
  else
    match obj with
    | none => .error "No such file or directory (os error 2)"
    | some o =>
      if o.isSymlinkKind then .error "should not be a symlink"
      else
        match homeDir with
        | none => .ok []
        | some home =>
          match diff_paths path home with
          | none => .ok []
          | some relpath =>
            match relpath.parent with
            | none => .ok []
            | some par =>
              .ok [.createDirAll ((s.pack_dir username).join par),
                   .copyFile path ((s.pack_dir username).join relpath),
                   .removeFile path]

/-- `S3Info` as declared in the source: note `region` is a mandatory
`String` there (only `endpoint` is an `Option`). -/
structure S3Info where
  bucket : String
  endpoint : Option String
  access_key_id : String
  secret_access_key : String
  region : String
deriving DecidableEq

/-- `S3Info::url`: `format!("s3:{}/{}", endpoint.unwrap_or("s3.amazonaws.com"), bucket)`. -/
def S3Info.url (s : S3Info) : String :=
  "s3:" ++ s.endpoint.getD "s3.amazonaws.com" ++ "/" ++ s.bucket

/-- `impl Default for S3Info`. -/
def S3Info.default : S3Info :=
  { bucket := "my_bucket"
    endpoint := some "https://my-s3-endpoint.net"
    access_key_id := "access_key_id"
    secret_access_key := "secret_access_key"
    region := "us-east-1" }

/-- `LocalPath`. -/
structure LocalPath where
  path : FsPath
deriving DecidableEq

/-- The `Repository` tagged union. -/
inductive Repository where
  | s3 : S3Info → Repository
  | localPath : LocalPath → Repository
deriving DecidableEq

/-- `Repository::path`. -/
def Repository.path : Repository → String
  | .localPath lp => lp.path.display
  | .s3 info => info.url

/-- The `backup` section of the configuration. -/
structure Backup where
  password : String
  excludes : List String
  targets : List String
  repository : Repository
deriving DecidableEq

/-- The whole persisted configuration. -/
structure Config where
  secretz : Secretz
  backup : Backup
deriving DecidableEq

/-- `impl Default for Config`. -/
def Config.default : Config :=
  { secretz := { path := ⟨true, [.normal "mnt", .normal "secretz"]⟩ }
    backup :=
      { password := "very_secure_password"
        excludes := ["target"]
        targets := ["/mnt/codez", "/mnt/secretz"]
        repository := .localPath { path := ⟨true, [.normal "mnt", .normal "backupz", .normal "wk"]⟩ } } }

/-- The argument vector of the `restic` invocation: `vec![main_cmd]`
extended with the extra arguments, exactly as `fn restic` builds it. -/
def resticArgs (mainCmd : String) (extraArgs : List String) : List String :=
  extraArgs.foldl (fun acc a => acc ++ [a]) [mainCmd]

/-- The environment of the `restic` invocation: `RESTIC_REPOSITORY` and
`RESTIC_PASSWORD` always, plus the three AWS variables exactly when the
repository is the S3 variant, in the order the code sets them. -/
def resticEnv (backup : Backup) : List (String × String) :=
  [("RESTIC_REPOSITORY", backup.repository.path), ("RESTIC_PASSWORD", backup.password)] ++
    match backup.repository with
    | .s3 info =>
      [("AWS_DEFAULT_REGION", info.region),
       ("AWS_ACCESS_KEY_ID", info.access_key_id),
       ("AWS_SECRET_ACCESS_KEY", info.secret_access_key)]
    | .localPath _ => []

/-- The extra arguments built by the `BackupSubcommands::Run` arm of `main`:
a `--exclude=` flag pushed per exclude, then every target pushed, via the
two `for` loops. -/
def runExtraArgs (backup : Backup) : List String :=
  let afterExcludes := backup.excludes.foldl (fun acc e => acc ++ ["--exclude=" ++ e]) []
  backup.targets.foldl (fun acc t => acc ++ [t]) afterExcludes

/-- The `BackupSubcommands` enum of the CLI, with the payloads the source
declares. -/
inductive BackupSubcommands where
  | init : Bool → BackupSubcommands
  | run : BackupSubcommands
  | snapshots : BackupSubcommands
  | restore : String → String → Option FsPath → String → BackupSubcommands

/-- The `structopt` subcommand names declared on `BackupSubcommands`. -/
def backupSubcommandNames : List String :=
  ["init", "run", "snapshots", "restore"]

/-- The restic verb `main` passes for each backup subcommand. -/
def backupVerb : BackupSubcommands → String
  | .init _ => "init"
  | .run => "backup"
  | .snapshots => "snapshots"
  | .restore _ _ _ _ => "restore"

/-- The extra restic arguments `main` passes for each backup subcommand. -/
def backupExtraArgs (cfg : Config) : BackupSubcommands → List String
  | .init _ => []
  | .run => runExtraArgs cfg.backup
  | .snapshots => []
  | .restore host target _ snapshot_id => ["-H", host, "--target", target, snapshot_id]

/-- `Config::load_from_path`, abstracted over its two collaborators: the
outcome of `File::open` + `read_to_string` (`none` = open failed; `some
(.error e)` = read failed; `some (.ok content)` = the file's text), and the
TOML decoder `toml::from_str`. An open failure yields the default; a read or
decode failure is propagated. -/
def load_from_path (openResult : Option (Except String String))
    (parse : String → Except String Config) : Except String Config :=
  match openResult with
  | none => .ok Config.default
  | some (.error e) => .error e
  | some (.ok content) => parse content

/-- The error message of `config init` against an existing document. -/
def configInitMsg : String := "config file already exists, use --force to overwrite"

/-- The `ConfigSubcommands::Init` arm of `main` as a state transition on the
document at the default config path (`none` = absent, `some c` = the stored
configuration): returns the command result together with the resulting
document state. -/
def configInit (existing : Option Config) (force remote_storage : Bool) :
    Except String Unit × Option Config :=
  if existing.isSome && !force then
    (.error configInitMsg, existing)
  else
    let cfg : Config :=
      if remote_storage then
        { Config.default with
            backup := { Config.default.backup with repository := .s3 S3Info.default } }
      else Config.default
    (.ok (), some cfg)

/-! ## Helper lemmas -/

/-- Stripping a path that extends the base by one final component leaves
exactly that component. -/
theorem diff_comps_append_single (b : List Component) (c : Component) :
    diff_comps (b ++ [c]) b = some [c] := by
  induction b with
  | nil => rfl
  | cons x xs ih => simpa [diff_comps] using ih

/-- A left fold that pushes one element per input appends the mapped list. -/
theorem foldl_push_eq {α β : Type} (f : α → β) :
    ∀ (l : List α) (init : List β),
      l.foldl (fun acc e => acc ++ [f e]) init = init ++ l.map f := by
  intro l
  induction l with
  | nil => intro init; simp
  | cons x xs ih => intro init; simp [List.foldl, ih]

/-! ## Claim theorems -/

/-- C1 counterexample: adopting the regular file `/etc/passwd` (outside the
home directory `/home/alice`) is not a no-op: `diff_paths` yields the
`..`-prefixed relative path `../../etc/passwd`, so `adopt` succeeds while
creating a directory, copying and deleting the file. -/
theorem c1_counterexample :
    Secretz.adopt ⟨⟨true, [Component.normal "mnt", Component.normal "secretz"]⟩⟩ "alice"
        (some ⟨true, [Component.normal "home", Component.normal "alice"]⟩)
        (some FileObject.regular)
        ⟨true, [Component.normal "etc", Component.normal "passwd"]⟩ =
      Except.ok
        [FsAction.createDirAll
           ⟨true, [Component.normal "mnt", Component.normal "secretz", Component.normal "alice",
                   Component.normal "pack", Component.parentDir, Component.parentDir,
                   Component.normal "etc"]⟩,
         FsAction.copyFile ⟨true, [Component.normal "etc", Component.normal "passwd"]⟩
           ⟨true, [Component.normal "mnt", Component.normal "secretz", Component.normal "alice",
                   Component.normal "pack", Component.parentDir, Component.parentDir,
                   Component.normal "etc", Component.normal "passwd"]⟩,
         FsAction.removeFile ⟨true, [Component.normal "etc", Component.normal "passwd"]⟩] ∧
    (FsAction.createDirAll
        ⟨true, [Component.normal "mnt", Component.normal "secretz", Component.normal "alice",
                Component.normal "pack", Component.parentDir, Component.parentDir,
                Component.normal "etc"]⟩ ::
      [FsAction.copyFile ⟨true, [Component.normal "etc", Component.normal "passwd"]⟩
         ⟨true, [Component.normal "mnt", Component.normal "secretz", Component.normal "alice",
                 Component.normal "pack", Component.parentDir, Component.parentDir,
                 Component.normal "etc", Component.normal "passwd"]⟩,
       FsAction.removeFile ⟨true, [Component.normal "etc", Component.normal "passwd"]⟩]) ≠
      ([] : List FsAction) :=
  ⟨rfl, List.cons_ne_nil _ _⟩

/-- C1 amended: the silent no-op for a regular non-symlink file holds
exactly when no relative position is computable, i.e. when the adopted path
is relative while the home directory is absolute; an absolute path outside
home is instead processed through a `..`-prefixed relative path. -/
theorem c1_amended (s : Secretz) (username : String) (home p : FsPath)
    (hp : p.absolute = false) (hh : home.absolute = true) :
    Secretz.adopt s username (some home) (some FileObject.regular) p = Except.ok [] := by
  simp [Secretz.adopt, isDirQuery, FileObject.resolvesToDir, FileObject.isSymlinkKind,
        diff_paths, hp, hh]

/-- C1 amended witness at a concrete relative path and absolute home. -/
theorem c1_amended_witness :
    (⟨false, [Component.normal "x"]⟩ : FsPath).absolute = false ∧
    (⟨true, [Component.normal "home"]⟩ : FsPath).absolute = true ∧
    Secretz.adopt ⟨⟨true, [Component.normal "mnt", Component.normal "secretz"]⟩⟩ "u"
        (some ⟨true, [Component.normal "home"]⟩) (some FileObject.regular)
        ⟨false, [Component.normal "x"]⟩ =
      Except.ok [] :=
  ⟨rfl, rfl, c1_amended _ _ _ _ rfl rfl⟩

/-- C2 counterexample: a symlink whose target is a directory is rejected by
the `is_dir` check (which follows symlinks and runs first), so the error is
"should not be a dir", not the "is a symlink" condition. -/
theorem c2_counterexample :
    Secretz.adopt ⟨⟨true, [Component.normal "mnt", Component.normal "secretz"]⟩⟩ "alice"
        (some ⟨true, [Component.normal "home", Component.normal "alice"]⟩)
        (some (FileObject.symlinkTo FileObject.directory))
        ⟨true, [Component.normal "home", Component.normal "alice", Component.normal "link"]⟩ =
      Except.error "should not be a dir" ∧
    ("should not be a dir" : String) ≠ "should not be a symlink" :=
  ⟨rfl, by decide⟩

/-- C2 amended: every symlink makes adopt fail with no mutation, but the
condition reported depends on the target: a symlink resolving to a
directory fails with the "is a directory" condition (the `is_dir` check
follows symlinks and runs first), every other symlink with the "is a
symlink" condition. -/
theorem c2_amended (s : Secretz) (u : String) (hd : Option FsPath) (o : FileObject) (p : FsPath)
    (hsym : o.isSymlinkKind = true) :
    Secretz.adopt s u hd (some o) p =
      Except.error
        (if o.resolvesToDir then "should not be a dir" else "should not be a symlink") := by
  by_cases hdir : o.resolvesToDir = true
  · simp [Secretz.adopt, isDirQuery, hdir]
  · simp [Secretz.adopt, isDirQuery, hdir, hsym]

/-- C2 amended witness at a symlink to a regular file. -/
theorem c2_amended_witness :
    (FileObject.symlinkTo FileObject.regular).isSymlinkKind = true ∧
    Secretz.adopt ⟨⟨true, [Component.normal "mnt", Component.normal "secretz"]⟩⟩ "u"
        (some ⟨true, [Component.normal "home"]⟩)
        (some (FileObject.symlinkTo FileObject.regular)) ⟨true, [Component.normal "f"]⟩ =
      Except.error "should not be a symlink" :=
  ⟨rfl, c2_amended _ _ _ _ _ rfl⟩

/-- C3 counterexample: a regular file directly inside the home directory is
adopted, not skipped: its relative path `secret.txt` has Rust parent
`Some("")`, so the pack directory is created and the file is copied to
`pack/secret.txt` and removed. -/
theorem c3_counterexample :
    Secretz.adopt ⟨⟨true, [Component.normal "mnt", Component.normal "secretz"]⟩⟩ "alice"
        (some ⟨true, [Component.normal "home", Component.normal "alice"]⟩)
        (some FileObject.regular)
        ⟨true, [Component.normal "home", Component.normal "alice",
                Component.normal "secret.txt"]⟩ =
      Except.ok
        [FsAction.createDirAll
           ⟨true, [Component.normal "mnt", Component.normal "secretz", Component.normal "alice",
                   Component.normal "pack"]⟩,
         FsAction.copyFile
           ⟨true, [Component.normal "home", Component.normal "alice",
                   Component.normal "secret.txt"]⟩
           ⟨true, [Component.normal "mnt", Component.normal "secretz", Component.normal "alice",
                   Component.normal "pack", Component.normal "secret.txt"]⟩,
         FsAction.removeFile
           ⟨true, [Component.normal "home", Component.normal "alice",
                   Component.normal "secret.txt"]⟩] ∧
    (FsAction.createDirAll
        ⟨true, [Component.normal "mnt", Component.normal "secretz", Component.normal "alice",
                Component.normal "pack"]⟩ ::
      [FsAction.copyFile
         ⟨true, [Component.normal "home", Component.normal "alice",
                 Component.normal "secret.txt"]⟩
         ⟨true, [Component.normal "mnt", Component.normal "secretz", Component.normal "alice",
                 Component.normal "pack", Component.normal "secret.txt"]⟩,
       FsAction.removeFile
         ⟨true, [Component.normal "home", Component.normal "alice",
                 Component.normal "secret.txt"]⟩]) ≠
      ([] : List FsAction) :=
  ⟨rfl, List.cons_ne_nil _ _⟩

/-- C3 amended: a regular non-symlink file sitting directly in the home
directory (one final component past home) is adopted: its one-component
relative path has an empty parent, so the pack directory itself is the
destination directory and the file is copied there and the original
removed. -/
theorem c3_amended (s : Secretz) (u name : String) (home : FsPath) :
    Secretz.adopt s u (some home) (some FileObject.regular)
        ⟨home.absolute, home.comps ++ [Component.normal name]⟩ =
      Except.ok
        [FsAction.createDirAll ((s.pack_dir u).join ⟨false, []⟩),
         FsAction.copyFile ⟨home.absolute, home.comps ++ [Component.normal name]⟩
           ((s.pack_dir u).join ⟨false, [Component.normal name]⟩),
         FsAction.removeFile ⟨home.absolute, home.comps ++ [Component.normal name]⟩] := by
  simp [Secretz.adopt, isDirQuery, FileObject.resolvesToDir, FileObject.isSymlinkKind,
        diff_paths, diff_comps_append_single, FsPath.parent]

/-- C4 counterexample: an empty-string endpoint is not treated like an
absent one: `Some("")` produces the address `s3:/foo`, not the default
`s3:s3.amazonaws.com/foo`. -/
theorem c4_counterexample :
    S3Info.url ⟨"foo", some "", "id", "secret", "us-east-1"⟩ = "s3:/foo" ∧
    S3Info.url ⟨"foo", none, "id", "secret", "us-east-1"⟩ = "s3:s3.amazonaws.com/foo" ∧
    ("s3:/foo" : String) ≠ "s3:s3.amazonaws.com/foo" :=
  ⟨rfl, rfl, by decide⟩

/-- C4 amended: the address is `s3:<endpoint>/<bucket>` with the fallback
`s3.amazonaws.com` used only when the endpoint is absent; a present
endpoint, including the empty string, is used verbatim. -/
theorem c4_amended (info : S3Info) (e : String) (he : info.endpoint = some e) :
    Repository.path (Repository.s3 info) = "s3:" ++ e ++ "/" ++ info.bucket ∧
    Repository.path (Repository.s3 { info with endpoint := none }) =
      "s3:" ++ "s3.amazonaws.com" ++ "/" ++ info.bucket :=
  ⟨by simp [Repository.path, S3Info.url, he], by simp [Repository.path, S3Info.url]⟩

/-- C4 amended witness at endpoint `https://x` and bucket `b`. -/
theorem c4_amended_witness :
    (S3Info.mk "b" (some "https://x") "i" "s" "r").endpoint = some "https://x" ∧
    Repository.path (Repository.s3 (S3Info.mk "b" (some "https://x") "i" "s" "r")) =
        "s3:" ++ "https://x" ++ "/" ++ "b" ∧
      Repository.path (Repository.s3 (S3Info.mk "b" none "i" "s" "r")) =
        "s3:" ++ "s3.amazonaws.com" ++ "/" ++ "b" :=
  ⟨rfl, c4_amended _ _ rfl⟩

/-- C5: in the source, `region` is a mandatory `String` field of `S3Info`
(not an `Option`), and the synthesized environment of every S3-backed
invocation always carries `AWS_DEFAULT_REGION` — it is never omitted. This
contradicts the claim's optional region, while the repository's own
`test_s3_url` constructs `S3Info` without a `region` field and therefore
cannot compile against this struct. -/
theorem c5_region_always_in_env (b : Backup) (info : S3Info)
    (h : b.repository = Repository.s3 info) :
    ("AWS_DEFAULT_REGION", info.region) ∈ resticEnv b := by
  simp [resticEnv, h]

/-- C5 witness at the default S3 backend. -/
theorem c5_region_witness :
    (Backup.mk "pw" [] [] (Repository.s3 S3Info.default)).repository =
        Repository.s3 S3Info.default ∧
    ("AWS_DEFAULT_REGION", S3Info.default.region) ∈
      resticEnv (Backup.mk "pw" [] [] (Repository.s3 S3Info.default)) :=
  ⟨rfl, c5_region_always_in_env _ _ rfl⟩

/-- C6 counterexample: the CLI has no `gc` backup subcommand and no
subcommand maps to the engine's maintenance verb `forget`. -/
theorem c6_counterexample :
    "gc" ∉ backupSubcommandNames ∧ ¬∃ s : BackupSubcommands, backupVerb s = "forget" := by
  refine ⟨by decide, ?_⟩
  rintro ⟨s, hs⟩
  cases s <;> simp [backupVerb] at hs

/-- C6 amended: the command synthesizer supports exactly the subcommands
`init`, `run`, `snapshots`, `restore`, whose verbs are `init`, `backup`,
`snapshots`, `restore`; no Gc/forget-and-prune operation exists. -/
theorem c6_amended (s : BackupSubcommands) :
    backupVerb s ∈ ["init", "backup", "snapshots", "restore"] ∧
    backupSubcommandNames = ["init", "run", "snapshots", "restore"] := by
  refine ⟨?_, rfl⟩
  cases s <;> simp [backupVerb]

/-- C7: the Run operation invokes verb `backup` with one `--exclude=`
flag per exclude in declared order followed by every target in declared
order (so all exclude flags precede all targets); on excludes `["target"]`
and targets `["/mnt/codez","/mnt/secretz"]` the tail is exactly
`["--exclude=target","/mnt/codez","/mnt/secretz"]`. -/
theorem c7_run_args (b : Backup) :
    resticArgs "backup" (runExtraArgs b) =
      "backup" :: (b.excludes.map (fun e => "--exclude=" ++ e) ++ b.targets) ∧
    runExtraArgs
        { password := "pw", excludes := ["target"], targets := ["/mnt/codez", "/mnt/secretz"],
          repository :=
            Repository.localPath
              ⟨⟨true, [Component.normal "mnt", Component.normal "backupz",
                       Component.normal "wk"]⟩⟩ } =
      ["--exclude=target", "/mnt/codez", "/mnt/secretz"] := by
  refine ⟨?_, rfl⟩
  simp [resticArgs, runExtraArgs, foldl_push_eq]

/-- C8: an unopenable configuration file yields the built-in default
without error, while a present file whose content fails to decode
propagates the decode error, never the default. -/
theorem c8_load_behavior (parse : String → Except String Config) (content e : String)
    (h : parse content = Except.error e) :
    load_from_path none parse = Except.ok Config.default ∧
    load_from_path (some (Except.ok content)) parse = Except.error e :=
  ⟨rfl, by simp [load_from_path, h]⟩

/-- C8 witness with a decoder that rejects the concrete content. -/
theorem c8_load_witness :
    (fun _ : String => (Except.error "invalid TOML" : Except String Config)) "not toml" =
        Except.error "invalid TOML" ∧
    load_from_path none (fun _ : String => (Except.error "invalid TOML" : Except String Config)) =
        Except.ok Config.default ∧
      load_from_path (some (Except.ok "not toml"))
          (fun _ : String => (Except.error "invalid TOML" : Except String Config)) =
        Except.error "invalid TOML" :=
  ⟨rfl, c8_load_behavior _ "not toml" "invalid TOML" rfl⟩

/-- C9: against an existing document, `config init` without force fails
with the "already exists" error and leaves the document untouched; with
force it overwrites the document with the default configuration. -/
theorem c9_config_init (c : Config) :
    configInit (some c) false false = (Except.error configInitMsg, some c) ∧
    configInit (some c) true false = (Except.ok (), some Config.default) :=
  ⟨rfl, rfl⟩

/-- C10: when the path does not exist, the `symlink_metadata` query fails
and its error is surfaced by `adopt` (no silent no-op), and no filesystem
mutation is performed. -/
theorem c10_missing_path_errors (s : Secretz) (u : String) (hd : Option FsPath) (p : FsPath) :
    Secretz.adopt s u hd none p = Except.error "No such file or directory (os error 2)" :=
  rfl

end Wk
